import Mathlib

/-!
Verification development for the FastA2A-Agno-Llamaindex repository.

Shallow embedding of:
  * the task data model and the storage update operation (the storage
    implementation itself lives in the external `fasta2a` package; its
    update semantics are modelled from the spec, see `applyUpdate`);
  * `AgnoWorker.run_task` / `AgnoWorker.cancel_task` (agno_worker.py);
  * `LlamaIndexWorker.run_task` / `LlamaIndexWorker.cancel_task`
    (llamaindex_worker.py);
  * `wait_for_task_completion` of orchestrate.py (bounded polling loop with
    try/except retry on server errors);
  * `wait_for_task_completion` of orchestrate_parallel.py (unbounded loop,
    modelled with explicit fuel);
  * `orchestrate_collaborative_workflow` / `main` (orchestrate.py);
  * `parallel_processing_workflow` (orchestrate_parallel.py).

Effectful Python code is modelled by explicit state passing: a worker's
`run_task` returns the list of `storage.update_task` calls it performs plus
a flag telling whether an uncaught exception escaped; the orchestration
loops consume a stream `Nat → FetchOutcome` giving the outcome of the n-th
`client.get_task` call.
-/

namespace A2A

/-- Task lifecycle states, transmitted as lowercase string literals. -/
inductive TaskState
  | submitted
  | working
  | completed
  | failed
  | canceled
deriving DecidableEq, Repr

/-- A terminal state: `completed`, `failed` or `canceled`. -/
def TaskState.isTerminal : TaskState → Bool
  | .completed => true
  | .failed => true
  | .canceled => true
  | _ => false

/-- One content part `{type, text}` of a message or artifact. -/
structure Part where
  type : String
  text : String
deriving DecidableEq, Repr

/-- One artifact `{index, parts, lastChunk}` as built by the workers. -/
structure Artifact where
  index : Nat
  parts : List Part
  lastChunk : Bool
deriving DecidableEq, Repr

/-- The stored task record: state, optional artifacts, optional error. -/
structure Task where
  id : String
  state : TaskState
  artifacts : Option (List Artifact)
  error : Option String
deriving DecidableEq, Repr

/-- A message `{role, parts}`. -/
structure Message where
  role : String
  parts : List Part
deriving DecidableEq, Repr

/-- The `params` dict handed to `run_task` / `cancel_task`. -/
structure TaskParams where
  id : String
  message : Message
deriving DecidableEq, Repr

/-- One call to `storage.update_task`: the keyword arguments actually
passed (`none` = keyword omitted).  The source never passes an `error`
keyword, but the field is kept so that the claim about attaching a
diagnostic string can be stated. -/
structure UpdateCall where
  state : TaskState
  artifacts : Option (List Artifact)
  error : Option String
deriving DecidableEq, Repr

/-- Modelled from the spec: `TaskStore.update` (fasta2a storage, external
to the repository) applies exactly the state-transition fields provided,
leaving omitted fields unchanged; no transition guard is specified. -/
def applyUpdate (t : Task) (u : UpdateCall) : Task :=
  { t with
    state := u.state
    artifacts := match u.artifacts with
      | some a => some a
      | none => t.artifacts
    error := match u.error with
      | some e => some e
      | none => t.error }

/-- Apply a sequence of `update_task` calls in order. -/
def applyUpdates (t : Task) (us : List UpdateCall) : Task :=
  us.foldl applyUpdate t

/-- `next(p["text"] for p in parts if p["type"] == "text")`: the first
text part's text; `none` models the `StopIteration` raised when no part
matches. -/
def findTextPart (parts : List Part) : Option String :=
  (parts.find? (fun p => p.type == "text")).map (fun p => p.text)

namespace AgnoWorker

/-- The shape of the object returned by `self.agent.arun(prompt)`, as
probed by `run_task`: optional `text`, `content` and `message` attributes
(`message` already carried through `str`), and the generic display string
`str(response)`. -/
structure RunResponse where
  text : Option String
  content : Option String
  message : Option String
  strConv : String
deriving DecidableEq, Repr

/-- Outcome of the Capability call `self.agent.arun(prompt)`. -/
inductive CapOutcome
  | ok (response : RunResponse)
  | raises
deriving DecidableEq, Repr

/-- The attribute-probing chain of agno_worker.py lines 40-47:
`text`, then `content`, then `str(message)`, then `str(response)`. -/
def extractAnswer (r : RunResponse) : String :=
  match r.text with
  | some t => t
  | none =>
    match r.content with
    | some c => c
    | none =>
      match r.message with
      | some m => m
      | none => r.strConv

/-- `AgnoWorker.run_task`: returns the list of `storage.update_task`
calls performed, and whether an uncaught exception escaped (the
`StopIteration` from the prompt extraction; a Capability exception is
caught and turned into a `failed` update). -/
def run_task (params : TaskParams) (cap : CapOutcome) :
    List UpdateCall × Bool :=
  match findTextPart params.message.parts with
  | none => ([], true)
  | some _prompt =>
    match cap with
    | .raises =>
        ([⟨.working, none, none⟩, ⟨.failed, none, none⟩], false)
    | .ok r =>
        ([⟨.working, none, none⟩,
          ⟨.completed,
           some [⟨0, [⟨"text", extractAnswer r⟩], true⟩],
           none⟩], false)

/-- `AgnoWorker.cancel_task`: a single unconditional
`update_task(params["id"], state="canceled")`. -/
def cancel_task (_params : TaskParams) : UpdateCall :=
  ⟨.canceled, none, none⟩

end AgnoWorker

namespace LlamaIndexWorker

/-- The `CompletionResponse` object returned by `self.llm.complete`:
an optional `text` attribute, plus (for stating the spec's claimed probing
order) an optional `content` attribute and the display string of the
object.  `run_task` itself only consults `text`. -/
structure CompletionResp where
  text : Option String
  content : Option String
  strConv : String
deriving DecidableEq, Repr

/-- Outcome of the Capability call `self.llm.complete(prompt)`. -/
inductive CapOutcome
  | ok (completion : CompletionResp)
  | raises
deriving DecidableEq, Repr

/-- `answer = getattr(completion, "text", completion)`: the `text`
attribute when present, otherwise the completion object itself (no
string conversion is applied). -/
def extractAnswer (c : CompletionResp) : String ⊕ CompletionResp :=
  match c.text with
  | some t => Sum.inl t
  | none => Sum.inr c

/-- Artifact part of the LlamaIndex worker; its `text` field receives
`answer`, which is either a string or the raw completion object. -/
structure LPart where
  type : String
  text : String ⊕ CompletionResp
deriving DecidableEq, Repr

/-- Artifact as built by the LlamaIndex worker. -/
structure LArtifact where
  index : Nat
  parts : List LPart
  lastChunk : Bool
deriving DecidableEq, Repr

/-- One `storage.update_task` call of the LlamaIndex worker. -/
structure LUpdateCall where
  state : TaskState
  artifacts : Option (List LArtifact)
  error : Option String
deriving DecidableEq, Repr

/-- `LlamaIndexWorker.run_task`, with the same convention as
`AgnoWorker.run_task`: update calls performed plus an
uncaught-exception flag. -/
def run_task (params : TaskParams) (cap : CapOutcome) :
    List LUpdateCall × Bool :=
  match findTextPart params.message.parts with
  | none => ([], true)
  | some _prompt =>
    match cap with
    | .raises =>
        ([⟨.working, none, none⟩, ⟨.failed, none, none⟩], false)
    | .ok c =>
        ([⟨.working, none, none⟩,
          ⟨.completed,
           some [⟨0, [⟨"text", extractAnswer c⟩], true⟩],
           none⟩], false)

/-- `LlamaIndexWorker.cancel_task`: unconditional canceled update. -/
def cancel_task (_params : TaskParams) : UpdateCall :=
  ⟨.canceled, none, none⟩

end LlamaIndexWorker

/-- The extraction order the spec describes (probe a "text" field, then a
"content" field, then fall back to the generic string conversion of the
result object), stated as its own definition so it can be compared with
the probing chains the two workers actually implement. -/
def extractAnswer_specOrder (r : AgnoWorker.RunResponse) : String :=
  match r.text with
  | some t => t
  | none =>
    match r.content with
    | some c => c
    | none => r.strConv

namespace Orchestrate

/-- Outcome of one `client.get_task` call in the polling loop: either a
reply carrying the task's `status.state` (with the first artifact's first
part's text for `completed` replies and the optional `error` field for
`failed` replies), or an exception raised by the call itself, identified
by its display string `str(e)`. -/
inductive FetchOutcome
  | ok (state : TaskState) (artifactText : String) (errorInfo : Option String)
  | exn (msg : String)
deriving DecidableEq, Repr

/-- Result of the waiter: the returned artifact text, or the display
string of the exception that propagated out of it. -/
inductive WaitResult
  | value (text : String)
  | exn (msg : String)
deriving DecidableEq, Repr

/-- `needle` occurs as a contiguous run inside the second list
(the semantics of Python's `in` on strings, on the character level). -/
def hasInfix (needle : List Char) : List Char → Bool
  | [] => needle.isEmpty
  | c :: rest => needle.isPrefixOf (c :: rest) || hasInfix needle rest

/-- The condition of the except-branch of orchestrate.py lines 29-30:
`"500" in str(e) or "Internal Server Error" in str(e)`. -/
def isTransportMsg (s : String) : Bool :=
  hasInfix ("500".toList) s.toList ||
    hasInfix ("Internal Server Error".toList) s.toList

/-- `max_attempts = 60  # 2 minutes timeout`. -/
def max_attempts : Nat := 60

/-- `f"{service_name} task failed: {error_info}"` where `error_info` is
`reply["result"].get("error", "No error details available")`. -/
def failedMsg (service_name : String) (error_info : Option String) : String :=
  service_name ++ " task failed: " ++ error_info.getD ("No error details available")

/-- `f"{service_name} task was canceled"`. -/
def canceledMsg (service_name : String) : String :=
  service_name ++ " task was canceled"

/-- `f"{service_name} task timed out after {max_attempts * 2} seconds"`. -/
def timeoutMsg (service_name : String) : String :=
  service_name ++ " task timed out after " ++ toString (max_attempts * 2) ++ " seconds"

/-- What one iteration of the while-loop body does with a fetch outcome:
continue after the 2-second poll sleep, continue after the 5-second
server-error backoff sleep, or leave the loop with a result.  Note that
the `raise` statements for `failed`/`canceled` sit inside the `try`
block, so their exceptions are themselves tested against the
server-error condition before propagating. -/
inductive StepOutcome
  | retPoll
  | retBackoff
  | done (r : WaitResult)
deriving DecidableEq, Repr

/-- One iteration of the loop body of orchestrate.py's
`wait_for_task_completion` (lines 12-35). -/
def waitStep (service_name : String) (o : FetchOutcome) : StepOutcome :=
  match o with
  | .ok .completed t _ => .done (.value t)
  | .ok .failed _ e =>
      if isTransportMsg (failedMsg service_name e) then .retBackoff
      else .done (.exn (failedMsg service_name e))
  | .ok .canceled _ _ =>
      if isTransportMsg (canceledMsg service_name) then .retBackoff
      else .done (.exn (canceledMsg service_name))
  | .ok _ _ _ => .retPoll
  | .exn m => if isTransportMsg m then .retBackoff else .done (.exn m)

/-- The loop of orchestrate.py's `wait_for_task_completion`:
`i` is the current value of `attempts` (equal to the number of
`get_task` calls already made, since every continue path increments it
exactly once), the second argument is `max_attempts - attempts`.
Also returns the list of sleep durations performed, in order. -/
def waitAux (service_name : String) (fetch : Nat → FetchOutcome) :
    Nat → Nat → WaitResult × List Nat
  | _, 0 => (.exn (timeoutMsg service_name), [])
  | i, r + 1 =>
    match waitStep service_name (fetch i) with
    | .done res => (res, [])
    | .retPoll =>
        let w := waitAux service_name fetch (i + 1) r
        (w.1, 2 :: w.2)
    | .retBackoff =>
        let w := waitAux service_name fetch (i + 1) r
        (w.1, 5 :: w.2)

/-- `wait_for_task_completion` of orchestrate.py: result only. -/
def wait_for_task_completion (service_name : String)
    (fetch : Nat → FetchOutcome) : WaitResult :=
  (waitAux service_name fetch 0 max_attempts).1

/-- The sequence of sleep durations (seconds) the waiter performs. -/
def waitSleeps (service_name : String) (fetch : Nat → FetchOutcome) : List Nat :=
  (waitAux service_name fetch 0 max_attempts).2

/-- The fetch call itself raised and its message matches the
server-error condition (the retryable "Transport" class of the spec). -/
def isTransportExn : FetchOutcome → Bool
  | .exn m => isTransportMsg m
  | _ => false

/-- The fetch returned a task in a non-terminal state
(`submitted` or `working`). -/
def isNonTerminalPoll : FetchOutcome → Bool
  | .ok .submitted _ _ => true
  | .ok .working _ _ => true
  | _ => false

/-- `llama_prompt` template of `orchestrate_collaborative_workflow`. -/
def llama_prompt (initial_prompt : String) : String :=
  "\n    Please provide a comprehensive analysis of the following topic using your retrieval-augmented capabilities:\n    \n    Topic: " ++
    initial_prompt ++
    "\n    \n    Focus on providing factual, well-sourced information and identify any areas that might need further clarification or different perspectives.\n    "

/-- `agno_prompt` template of `orchestrate_collaborative_workflow`. -/
def agno_prompt (initial_prompt llama_result : String) : String :=
  "\n    I have received the following analysis from a RAG-enhanced system about \"" ++
    initial_prompt ++ "\":\n\n    " ++ llama_result ++
    "\n\n    Please:\n    1. Synthesize this information in a more accessible and engaging way\n    2. Add creative insights or analogies that might help understanding\n    3. Identify any potential counterarguments or alternative perspectives\n    4. Provide a final, well-rounded response that combines factual accuracy with clear communication\n\n    Make your response comprehensive but engaging.\n    "

/-- `validation_prompt` template of `orchestrate_collaborative_workflow`. -/
def validation_prompt (initial_prompt agno_result : String) : String :=
  "\n    Please review the following synthesized response for accuracy and completeness:\n\n    Original topic: " ++
    initial_prompt ++ "\n    \n    Synthesized response to validate:\n    " ++ agno_result ++
    "\n\n    Please:\n    1. Verify the factual accuracy of the claims made\n    2. Check if any important information was omitted or misrepresented\n    3. Suggest any corrections or additions needed\n    4. Provide a final confidence assessment\n\n    If the synthesis is accurate, endorse it. If not, provide corrections.\n    "

/-- `final_prompt` template of `orchestrate_collaborative_workflow`. -/
def final_prompt (initial_prompt validation_result agno_result : String) : String :=
  "\n    Based on the validation feedback below, please provide the final, most accurate and engaging response to: \"" ++
    initial_prompt ++ "\"\n\n    Validation feedback:\n    " ++ validation_result ++
    "\n\n    Previous synthesis:\n    " ++ agno_result ++
    "\n\n    Please incorporate any necessary corrections and provide the definitive answer.\n    "

/-- `orchestrate_collaborative_workflow`: four sequential steps
(LlamaIndex analysis, Agno synthesis, LlamaIndex validation, Agno final).
`env k` is the stream of `get_task` outcomes observed while waiting for
the task submitted at step `k`.  Returns the workflow outcome (final
result or the propagated exception) together with the ordered list of
`(service, prompt)` submissions actually performed by
`send_task_to_service`. -/
def orchestrate_collaborative_workflow (initial_prompt : String)
    (env : Nat → Nat → FetchOutcome) :
    WaitResult × List (String × String) :=
  let p0 := llama_prompt initial_prompt
  let s0 := [(("LlamaIndex" : String), p0)]
  match wait_for_task_completion ("LlamaIndex") (env 0) with
  | .exn m => (.exn m, s0)
  | .value llama_result =>
    let p1 := agno_prompt initial_prompt llama_result
    let s1 := s0 ++ [(("Agno" : String), p1)]
    match wait_for_task_completion ("Agno") (env 1) with
    | .exn m => (.exn m, s1)
    | .value agno_result =>
      let p2 := validation_prompt initial_prompt agno_result
      let s2 := s1 ++ [(("LlamaIndex" : String), p2)]
      match wait_for_task_completion ("LlamaIndex") (env 2) with
      | .exn m => (.exn m, s2)
      | .value validation_result =>
        let p3 := final_prompt initial_prompt validation_result agno_result
        let s3 := s2 ++ [(("Agno" : String), p3)]
        match wait_for_task_completion ("Agno") (env 3) with
        | .exn m => (.exn m, s3)
        | .value final_result => (.value final_result, s3)

/-- What `main` reports: the final collaborative result, or the error it
catches and prints. -/
inductive MainOutcome
  | finalResult (answer : String)
  | errorPrinted (msg : String)
deriving DecidableEq, Repr

/-- `initial_question` of orchestrate.py's `main`. -/
def initial_question : String :=
  "Explain the Pauli exclusion principle in one paragraph."

/-- `main` of orchestrate.py: runs the collaborative workflow on the
fixed question and catches any exception, printing it as the error of
the run. -/
def main (env : Nat → Nat → FetchOutcome) : MainOutcome :=
  match (orchestrate_collaborative_workflow initial_question env).1 with
  | .value a => .finalResult a
  | .exn m => .errorPrinted m

end Orchestrate

namespace OrchestrateParallel

open Orchestrate (FetchOutcome WaitResult)

/-- One iteration of the loop body of orchestrate_parallel.py's
`wait_for_task_completion` (lines 8-20): no try/except, no attempt
counter — `completed` returns the artifact text, `failed`/`canceled`
raise, an exception of `get_task` propagates, anything else polls on. -/
def waitStep (service_name : String) (o : FetchOutcome) : Option WaitResult :=
  match o with
  | .ok .completed t _ => some (.value t)
  | .ok .failed _ _ => some (.exn (service_name ++ " task failed"))
  | .ok .canceled _ _ => some (.exn (service_name ++ " task was canceled"))
  | .ok _ _ _ => none
  | .exn m => some (.exn m)

/-- `wait_for_task_completion` of orchestrate_parallel.py: a `while True`
loop with no deadline.  The extra fuel argument only bounds how many
iterations we observe: `none` means the loop is still polling after that
many `get_task` calls (the source loop itself has no way to stop). -/
def wait_for_task_completion (service_name : String)
    (fetch : Nat → FetchOutcome) : Nat → Nat → Option WaitResult
  | _, 0 => none
  | i, f + 1 =>
    match waitStep service_name (fetch i) with
    | some r => some r
    | none => wait_for_task_completion service_name fetch (i + 1) f

/-- `agno_prompt` built inside `process_with_agno`. -/
def agno_fanout_prompt (initial_prompt : String) : String :=
  "\n        Please provide a comprehensive and engaging explanation of:\n        " ++
    initial_prompt ++
    "\n        \n        Focus on clarity, creativity, and making the concept accessible.\n        "

/-- `llama_prompt` built inside `process_with_llama`. -/
def llama_fanout_prompt (initial_prompt : String) : String :=
  "\n        Please provide a detailed, factual analysis of:\n        " ++
    initial_prompt ++
    "\n        \n        Focus on accuracy, technical depth, and comprehensive coverage.\n        "

/-- Leading piece of `synthesis_prompt`, up to and including the
`Response 1 (Creative/Accessible):` heading that precedes
`{agno_result}`. -/
def synthesis_pre (initial_prompt : String) : String :=
  "\n    I have two different responses to the question: \"" ++ initial_prompt ++
    "\"\n\n    Response 1 (Creative/Accessible):\n    "

/-- Middle piece of `synthesis_prompt`, between `{agno_result}` and
`{llama_result}`. -/
def synthesis_mid : String :=
  "\n\n    Response 2 (Technical/Factual):\n    "

/-- Trailing piece of `synthesis_prompt`, after `{llama_result}`. -/
def synthesis_post : String :=
  "\n\n    Please synthesize these two responses into a single, comprehensive answer that:\n    1. Combines the best aspects of both responses\n    2. Resolves any contradictions by favoring factual accuracy\n    3. Maintains accessibility while preserving technical precision\n    4. Provides a well-rounded, complete answer\n\n    Create the definitive response that leverages both perspectives.\n    "

/-- `synthesis_prompt`: the f-string interpolates `agno_result` before
`llama_result`. -/
def synthesis_prompt (initial_prompt agno_result llama_result : String) : String :=
  synthesis_pre initial_prompt ++ agno_result ++ synthesis_mid ++
    llama_result ++ synthesis_post

/-- Python f-string rendering of a variable initialized to `None`. -/
def pyStr (o : Option String) : String :=
  match o with
  | some s => s
  | none => "None"

/-- The result-extraction loop of `parallel_processing_workflow`
(lines 91-97): scans the shared `results` list and binds `agno_result` /
`llama_result` from the service tags, whatever order the list was
appended in. -/
def extract_results (results : List (String × String)) :
    Option String × Option String :=
  results.foldl
    (fun acc pr =>
      if pr.1 == "agno" then (some pr.2, acc.2)
      else if pr.1 == "llama" then (acc.1, some pr.2)
      else acc)
    (none, none)

/-- The synthesis prompt as the workflow actually builds it from the
shared `results` list: bind `agno_result` / `llama_result` by scanning
the list, then substitute both into the template. -/
def synthesis_prompt_from_results (initial_prompt : String)
    (results : List (String × String)) : String :=
  synthesis_prompt initial_prompt (pyStr (extract_results results).1)
    (pyStr (extract_results results).2)

/-- The observable trace of one `parallel_processing_workflow` run:
every `(service, prompt)` submission performed, the bound
`agno_result`/`llama_result`, and the returned final result. -/
structure ParallelTrace where
  submissions : List (String × String)
  agno_result : Option String
  llama_result : Option String
  final_result : String
deriving DecidableEq, Repr

/-- The two submissions an anyio task group performs, serialized in one
of the two possible interleavings (`start_soon` gives no ordering
guarantee between the two members). -/
def groupSubmissions (agnoPrompt llamaPrompt : String) (agnoFirst : Bool) :
    List (String × String) :=
  if agnoFirst then
    [(("Agno" : String), agnoPrompt), (("LlamaIndex" : String), llamaPrompt)]
  else
    [(("LlamaIndex" : String), llamaPrompt), (("Agno" : String), agnoPrompt)]

/-- `parallel_processing_workflow` (lines 35-124), on the path where
every awaited task completes.  `envAgno n` / `envLlama n` give the
completed artifact text of the n-th task each service executes for this
run (occurrence 0: first task group, discarded; occurrence 1: second
task group, collected; occurrence 2, Agno only: synthesis task).  The
three Booleans serialize the nondeterminism of the anyio task groups:
submission order inside the first and the second group, and which
service's collector appended to the shared `results` list first. -/
def parallel_processing_workflow (initial_prompt : String)
    (envAgno envLlama : Nat → String)
    (firstGroupAgnoFirst secondGroupAgnoFirst agnoFinishedFirst : Bool) :
    ParallelTrace :=
  let pA := agno_fanout_prompt initial_prompt
  let pL := llama_fanout_prompt initial_prompt
  let subs1 := groupSubmissions pA pL firstGroupAgnoFirst
  let subs2 := groupSubmissions pA pL secondGroupAgnoFirst
  let aRes := envAgno 1
  let lRes := envLlama 1
  let results :=
    if agnoFinishedFirst then
      [(("agno" : String), aRes), (("llama" : String), lRes)]
    else
      [(("llama" : String), lRes), (("agno" : String), aRes)]
  let er := extract_results results
  let sp := synthesis_prompt_from_results initial_prompt results
  { submissions := subs1 ++ subs2 ++ [(("Agno" : String), sp)]
    agno_result := er.1
    llama_result := er.2
    final_result := envAgno 2 }

end OrchestrateParallel

/-! ## Sample inputs used by concrete instances -/

/-- Sample `run_task` params carrying a single text part `"2+2"`. -/
def sampleParams : TaskParams := ⟨"t1", ⟨"user", [⟨"text", "2+2"⟩]⟩⟩

/-- Sample `run_task` params whose message has no part of type "text". -/
def noTextParams : TaskParams := ⟨"t2", ⟨"user", [⟨"file", "payload"⟩]⟩⟩

/-- A freshly created task record, still in state `submitted`. -/
def freshTask : Task := ⟨"t1", .submitted, none, none⟩

/-- A task record that already reached the terminal state `completed`. -/
def completedSample : Task :=
  ⟨"t1", .completed, some [⟨0, [⟨"text", "4"⟩], true⟩], none⟩

/-- A fetch stream that always raises a server error. -/
def transportOnlyFetch : Nat → Orchestrate.FetchOutcome :=
  fun _ => .exn ("Internal Server Error")

/-- Scenario C fetch stream: two transport errors, then a `completed`
reply with artifact text `"4"`. -/
def scenarioCFetch : Nat → Orchestrate.FetchOutcome :=
  fun i => if i < 2 then .exn ("Internal Server Error")
           else .ok .completed ("4") none

/-- A fetch stream whose task is forever `working`. -/
def workingFetch : Nat → Orchestrate.FetchOutcome :=
  fun _ => .ok .working ("") none

/-- A fetch stream whose task is `failed` with a diagnostic string
containing "Internal Server Error" on the first poll, and `completed`
afterwards. -/
def failed500ThenCompleted : Nat → Orchestrate.FetchOutcome :=
  fun i => if i = 0 then .ok .failed ("") (some ("Internal Server Error"))
           else .ok .completed ("late") none

/-- A fetch stream whose task is forever `failed` with a diagnostic
string containing "Internal Server Error". -/
def failed500Forever : Nat → Orchestrate.FetchOutcome :=
  fun _ => .ok .failed ("") (some ("Internal Server Error"))

/-- An environment for the collaborative workflow whose first step
completes with `"r0"` and whose second step reads a `failed` task with
error `"boom"`. -/
def step1FailEnv : Nat → Nat → Orchestrate.FetchOutcome :=
  fun k _ => if k = 0 then .ok .completed ("r0") none
             else .ok .failed ("") (some ("boom"))

/-! ## Helper lemmas about the polling loop -/

/-- A fetch exception matching the server-error condition makes the loop
body take the 5-second backoff branch. -/
theorem waitStep_transport (sn : String) (o : Orchestrate.FetchOutcome)
    (h : Orchestrate.isTransportExn o = true) :
    Orchestrate.waitStep sn o = .retBackoff := by
  cases o with
  | exn m =>
    simp only [Orchestrate.isTransportExn] at h
    simp [Orchestrate.waitStep, h]
  | ok st a e => simp [Orchestrate.isTransportExn] at h

/-- A non-terminal reply makes the loop body take the 2-second poll
branch. -/
theorem waitStep_poll (sn : String) (o : Orchestrate.FetchOutcome)
    (h : Orchestrate.isNonTerminalPoll o = true) :
    Orchestrate.waitStep sn o = .retPoll := by
  cases o with
  | exn m => simp [Orchestrate.isNonTerminalPoll] at h
  | ok st a e =>
    cases st <;> simp_all [Orchestrate.isNonTerminalPoll, Orchestrate.waitStep]

/-- If every iteration within the remaining budget continues (poll or
backoff), the loop exhausts its budget and raises the timeout message. -/
theorem waitAux_exhaust (sn : String) (fetch : Nat → Orchestrate.FetchOutcome) :
    ∀ r i, (∀ j, j < r →
        Orchestrate.waitStep sn (fetch (i + j)) = .retPoll ∨
        Orchestrate.waitStep sn (fetch (i + j)) = .retBackoff) →
      (Orchestrate.waitAux sn fetch i r).1 = .exn (Orchestrate.timeoutMsg sn) := by
  intro r
  induction r with
  | zero => intro i _; rfl
  | succ r ih =>
    intro i h
    have h0 := h 0 (Nat.succ_pos r)
    rw [Nat.add_zero] at h0
    have hrest : ∀ j, j < r →
        Orchestrate.waitStep sn (fetch (i + 1 + j)) = .retPoll ∨
        Orchestrate.waitStep sn (fetch (i + 1 + j)) = .retBackoff := by
      intro j hj
      have hx := h (j + 1) (Nat.succ_lt_succ hj)
      rwa [show i + (j + 1) = i + 1 + j by omega] at hx
    rcases h0 with h0 | h0 <;>
      simp [Orchestrate.waitAux, h0, ih (i + 1) hrest]

/-- The loop body only leaves the loop with a returned value when the
fetch reply was a `completed` task carrying that value. -/
theorem waitStep_done_value (sn : String) (o : Orchestrate.FetchOutcome)
    (t : String) (h : Orchestrate.waitStep sn o = .done (.value t)) :
    ∃ e, o = .ok .completed t e := by
  cases o with
  | exn m =>
    simp only [Orchestrate.waitStep] at h
    split at h <;> simp_all
  | ok st a e =>
    cases st <;> simp only [Orchestrate.waitStep] at h
    · exact absurd h (by simp)
    · exact absurd h (by simp)
    · simp at h
      exact ⟨e, by rw [h]⟩
    · split at h <;> simp_all
    · split at h <;> simp_all

/-- The waiter returns a value only if some fetch within the budget
replied `completed` with that value. -/
theorem waitAux_value_fetch (sn : String) (fetch : Nat → Orchestrate.FetchOutcome) :
    ∀ r i t, (Orchestrate.waitAux sn fetch i r).1 = .value t →
      ∃ j, j < r ∧ ∃ e, fetch (i + j) = .ok .completed t e := by
  intro r
  induction r with
  | zero =>
    intro i t h
    exact absurd h (by simp [Orchestrate.waitAux])
  | succ r ih =>
    intro i t h
    cases hs : Orchestrate.waitStep sn (fetch i) with
    | retPoll =>
      simp only [Orchestrate.waitAux, hs] at h
      obtain ⟨j, hj, e, hf⟩ := ih (i + 1) t h
      refine ⟨j + 1, Nat.succ_lt_succ hj, e, ?_⟩
      rwa [show i + (j + 1) = i + 1 + j by omega]
    | retBackoff =>
      simp only [Orchestrate.waitAux, hs] at h
      obtain ⟨j, hj, e, hf⟩ := ih (i + 1) t h
      refine ⟨j + 1, Nat.succ_lt_succ hj, e, ?_⟩
      rwa [show i + (j + 1) = i + 1 + j by omega]
    | done res =>
      simp only [Orchestrate.waitAux, hs] at h
      obtain ⟨e, hf⟩ := waitStep_done_value sn (fetch i) t (h ▸ hs)
      exact ⟨0, Nat.succ_pos r, e, by rwa [Nat.add_zero]⟩

/-! ## Claim theorems: the workers -/

/-- C1 counterexample: for the task `"2+2"` whose Capability raises, the
stored record after `AgnoWorker.run_task` has `state = failed` and no
artifacts, but its `error` field is `none` — no diagnostic string is
attached, contradicting the claim. -/
theorem C1_counterexample :
    (applyUpdates freshTask (AgnoWorker.run_task sampleParams .raises).1).state =
      .failed ∧
    (applyUpdates freshTask (AgnoWorker.run_task sampleParams .raises).1).error =
      none ∧
    (applyUpdates freshTask (AgnoWorker.run_task sampleParams .raises).1).artifacts =
      none := by
  exact ⟨rfl, rfl, rfl⟩

/-- C1 (amended): for every task whose Capability invocation raises, both
workers record exactly the updates `working` then `failed`; the stored
record ends in `state = failed` with its `artifacts` and `error` fields
unchanged — in particular no artifacts and no diagnostic error string for
a fresh task, since `update_task` is called with the `state` keyword
only. -/
theorem C1_theorem (params : TaskParams) (t : Task) (p : String)
    (h : findTextPart params.message.parts = some p) :
    (AgnoWorker.run_task params .raises).1 =
      [⟨.working, none, none⟩, ⟨.failed, none, none⟩] ∧
    (LlamaIndexWorker.run_task params .raises).1 =
      [⟨.working, none, none⟩, ⟨.failed, none, none⟩] ∧
    (applyUpdates t (AgnoWorker.run_task params .raises).1).state = .failed ∧
    (applyUpdates t (AgnoWorker.run_task params .raises).1).artifacts =
      t.artifacts ∧
    (applyUpdates t (AgnoWorker.run_task params .raises).1).error = t.error := by
  simp [AgnoWorker.run_task, LlamaIndexWorker.run_task, h, applyUpdates,
    applyUpdate]

/-- C1 witness: the amended statement at the concrete `"2+2"` task and a
fresh record. -/
theorem C1_witness :
    (AgnoWorker.run_task sampleParams .raises).1 =
      [⟨.working, none, none⟩, ⟨.failed, none, none⟩] ∧
    (LlamaIndexWorker.run_task sampleParams .raises).1 =
      [⟨.working, none, none⟩, ⟨.failed, none, none⟩] ∧
    (applyUpdates freshTask (AgnoWorker.run_task sampleParams .raises).1).state =
      .failed ∧
    (applyUpdates freshTask (AgnoWorker.run_task sampleParams .raises).1).artifacts =
      freshTask.artifacts ∧
    (applyUpdates freshTask (AgnoWorker.run_task sampleParams .raises).1).error =
      freshTask.error :=
  C1_theorem sampleParams freshTask ("2+2") rfl

/-- C5 counterexample: the Agno worker probes a `message` attribute
between `content` and the generic string conversion, so a result with
only a `message` attribute extracts to `str(message)` and not to the
generic conversion the spec's order yields; and the LlamaIndex worker
never probes `content`: lacking `text`, it keeps the raw completion
object. -/
theorem C5_counterexample :
    AgnoWorker.extractAnswer ⟨none, none, some ("from-message"), "generic-str"⟩ ≠
      extractAnswer_specOrder ⟨none, none, some ("from-message"), "generic-str"⟩ ∧
    AgnoWorker.extractAnswer ⟨none, none, some ("from-message"), "generic-str"⟩ =
      "from-message" ∧
    LlamaIndexWorker.extractAnswer ⟨none, some ("from-content"), "obj-str"⟩ =
      Sum.inr ⟨none, some ("from-content"), "obj-str"⟩ := by
  exact ⟨by decide, rfl, rfl⟩

/-- C5 (amended): when the Capability returns a result, each worker
transitions the task to `completed` with exactly one artifact holding a
single text part with the extracted answer — where the Agno worker
probes `text`, then `content`, then `str(message)`, then the generic
`str(response)`, and the LlamaIndex worker probes only `text`, falling
back to the raw completion object; for input `"2+2"` with result
`{text: "4"}` the stored task is `completed` with artifact text `"4"`. -/
theorem C5_theorem (params : TaskParams) (p : String)
    (r : AgnoWorker.RunResponse) (c : LlamaIndexWorker.CompletionResp)
    (h : findTextPart params.message.parts = some p) :
    (AgnoWorker.run_task params (.ok r)).1 =
      [⟨.working, none, none⟩,
       ⟨.completed, some [⟨0, [⟨"text", AgnoWorker.extractAnswer r⟩], true⟩],
        none⟩] ∧
    (LlamaIndexWorker.run_task params (.ok c)).1 =
      [⟨.working, none, none⟩,
       ⟨.completed,
        some [⟨0, [⟨"text", LlamaIndexWorker.extractAnswer c⟩], true⟩],
        none⟩] ∧
    applyUpdates freshTask
        (AgnoWorker.run_task sampleParams
          (.ok ⟨some ("4"), none, none, "resp-str"⟩)).1 =
      ⟨"t1", .completed, some [⟨0, [⟨"text", "4"⟩], true⟩], none⟩ := by
  refine ⟨?_, ?_, rfl⟩
  · simp [AgnoWorker.run_task, h]
  · simp [LlamaIndexWorker.run_task, h]

/-- C5 witness: the amended statement at the `"2+2"` task with Capability
result `{text: "4"}`. -/
theorem C5_witness :
    (AgnoWorker.run_task sampleParams
        (.ok ⟨some ("4"), none, none, "resp-str"⟩)).1 =
      [⟨.working, none, none⟩,
       ⟨.completed,
        some [⟨0,
          [⟨"text",
            AgnoWorker.extractAnswer ⟨some ("4"), none, none, "resp-str"⟩⟩],
          true⟩],
        none⟩] ∧
    (LlamaIndexWorker.run_task sampleParams (.ok ⟨some ("4"), none, "obj-str"⟩)).1 =
      [⟨.working, none, none⟩,
       ⟨.completed,
        some [⟨0,
          [⟨"text",
            LlamaIndexWorker.extractAnswer ⟨some ("4"), none, "obj-str"⟩⟩],
          true⟩],
        none⟩] ∧
    applyUpdates freshTask
        (AgnoWorker.run_task sampleParams
          (.ok ⟨some ("4"), none, none, "resp-str"⟩)).1 =
      ⟨"t1", .completed, some [⟨0, [⟨"text", "4"⟩], true⟩], none⟩ :=
  C5_theorem sampleParams ("2+2") ⟨some ("4"), none, none, "resp-str"⟩
    ⟨some ("4"), none, "obj-str"⟩ rfl

/-- C6 counterexample: a cancellation request against a task already in
the terminal state `completed` moves its stored state to `canceled` — an
observable transition out of a terminal state. -/
theorem C6_counterexample :
    completedSample.state.isTerminal = true ∧
    (applyUpdate completedSample (AgnoWorker.cancel_task sampleParams)).state ≠
      completedSample.state := by
  exact ⟨rfl, by decide⟩

/-- C6 (amended): `cancel_task` of both workers performs an unconditional
`update_task(id, state="canceled")`: the resulting state is `canceled`
whatever the current state was (so the stored state is preserved only
when it already was `canceled`), with artifacts and error untouched;
`completed` and `failed` are not protected against a later cancellation
request. -/
theorem C6_theorem (params : TaskParams) (t : Task) :
    (applyUpdate t (AgnoWorker.cancel_task params)).state = .canceled ∧
    ((applyUpdate t (AgnoWorker.cancel_task params)).state = t.state ↔
      t.state = .canceled) ∧
    (applyUpdate t (AgnoWorker.cancel_task params)).artifacts = t.artifacts ∧
    (applyUpdate t (AgnoWorker.cancel_task params)).error = t.error ∧
    applyUpdate t (LlamaIndexWorker.cancel_task params) =
      applyUpdate t (AgnoWorker.cancel_task params) := by
  refine ⟨rfl, ?_, rfl, rfl, rfl⟩
  simp [applyUpdate, AgnoWorker.cancel_task, eq_comm]

/-- C9: if the message carries no part of type `"text"`, the prompt
extraction raises `StopIteration` before any storage update: both
workers perform no `update_task` call, the exception escapes, and the
stored record — in particular a fresh `submitted` one — is unchanged. -/
theorem C9_theorem (params : TaskParams) (capA : AgnoWorker.CapOutcome)
    (capL : LlamaIndexWorker.CapOutcome) (t : Task)
    (h : findTextPart params.message.parts = none) :
    AgnoWorker.run_task params capA = ([], true) ∧
    LlamaIndexWorker.run_task params capL = ([], true) ∧
    applyUpdates t (AgnoWorker.run_task params capA).1 = t ∧
    (applyUpdates freshTask (AgnoWorker.run_task params capA).1).state =
      .submitted := by
  simp [AgnoWorker.run_task, LlamaIndexWorker.run_task, h, applyUpdates,
    freshTask]

/-- C9 witness: the statement at a message holding only a `"file"` part. -/
theorem C9_witness :
    AgnoWorker.run_task noTextParams .raises = ([], true) ∧
    LlamaIndexWorker.run_task noTextParams .raises = ([], true) ∧
    applyUpdates freshTask (AgnoWorker.run_task noTextParams .raises).1 =
      freshTask ∧
    (applyUpdates freshTask (AgnoWorker.run_task noTextParams .raises).1).state =
      .submitted :=
  C9_theorem noTextParams .raises .raises freshTask rfl

/-! ## Claim theorems: the polling waiters -/

/-- C2 counterexample: there is no separate transport retry budget — a
stream of nothing but transport errors exhausts the shared
`max_attempts` counter and raises the timeout message, not the transport
error the claim says is propagated when its (much smaller) separate
budget of 3 runs out. -/
theorem C2_counterexample :
    Orchestrate.wait_for_task_completion ("Agno") transportOnlyFetch =
      .exn (Orchestrate.timeoutMsg ("Agno")) ∧
    Orchestrate.timeoutMsg ("Agno") ≠ "Internal Server Error" := by
  exact ⟨rfl, by decide⟩

/-- C2 (amended): a fetch failure recognized as a server error ("500" or
"Internal Server Error" in its message) is counted against the same
shared `max_attempts` budget as ordinary polls, consuming one unit and
sleeping the longer 5-second backoff before retrying; once that shared
budget is exhausted a timeout error is raised (the transport error is
not propagated); a fetch sequence of two transport errors followed by a
completed task makes the waiter succeed with the completed task's text,
having slept the 5-second backoff twice. -/
theorem C2_theorem (sn : String) (fetch : Nat → Orchestrate.FetchOutcome)
    (i r : Nat) (m : String)
    (hm : Orchestrate.isTransportMsg m = true) (hf : fetch i = .exn m) :
    Orchestrate.waitAux sn fetch i (r + 1) =
      ((Orchestrate.waitAux sn fetch (i + 1) r).1,
        5 :: (Orchestrate.waitAux sn fetch (i + 1) r).2) ∧
    ((∀ j, j < Orchestrate.max_attempts →
        Orchestrate.isTransportExn (fetch j) = true) →
      Orchestrate.wait_for_task_completion sn fetch =
        .exn (Orchestrate.timeoutMsg sn)) ∧
    Orchestrate.wait_for_task_completion ("Agno") scenarioCFetch =
      .value ("4") ∧
    Orchestrate.waitSleeps ("Agno") scenarioCFetch = [5, 5] := by
  refine ⟨?_, ?_, rfl, rfl⟩
  · have hstep : Orchestrate.waitStep sn (fetch i) = .retBackoff := by
      rw [hf]
      exact waitStep_transport sn (.exn m)
        (by simpa [Orchestrate.isTransportExn] using hm)
    simp [Orchestrate.waitAux, hstep]
  · intro hall
    exact waitAux_exhaust sn fetch Orchestrate.max_attempts 0
      (fun j hj => Or.inr (waitStep_transport sn (fetch (0 + j))
        (by rw [Nat.zero_add]; exact hall j hj)))

/-- C2 witness: the backoff step of the amended statement at a concrete
transport-error stream. -/
theorem C2_witness :
    Orchestrate.waitAux ("Agno") transportOnlyFetch 0 (59 + 1) =
      ((Orchestrate.waitAux ("Agno") transportOnlyFetch 1 59).1,
        5 :: (Orchestrate.waitAux ("Agno") transportOnlyFetch 1 59).2) :=
  (C2_theorem ("Agno") transportOnlyFetch 0 59 ("Internal Server Error")
    rfl rfl).1

/-- C3 counterexample: the claim also covers the waiter of
orchestrate_parallel.py, but that loop has no deadline at all: on a task
that never leaves `working` it is still polling after 100 fetches —
well past the claimed 60-attempt budget — and no `TimeoutError` is ever
produced. -/
theorem C3_counterexample :
    OrchestrateParallel.wait_for_task_completion ("Agno") workingFetch 0 100 =
      none := by
  rfl

/-- C3 (amended): the waiter of orchestrate.py does terminate: if every
fetch within the 60-attempt budget reports a non-terminal state, it
raises the timeout message ("timed out after 120 seconds"), and it
returns a result only when some fetch within the budget reported a
`completed` task with that result.  The waiter of orchestrate_parallel.py
has no such deadline (see the counterexample). -/
theorem C3_theorem (sn : String) (fetch : Nat → Orchestrate.FetchOutcome) :
    ((∀ j, j < Orchestrate.max_attempts →
        Orchestrate.isNonTerminalPoll (fetch j) = true) →
      Orchestrate.wait_for_task_completion sn fetch =
        .exn (Orchestrate.timeoutMsg sn)) ∧
    (∀ t, Orchestrate.wait_for_task_completion sn fetch = .value t →
      ∃ j, j < Orchestrate.max_attempts ∧
        ∃ e, fetch j = .ok .completed t e) := by
  constructor
  · intro hall
    exact waitAux_exhaust sn fetch Orchestrate.max_attempts 0
      (fun j hj => Or.inl (waitStep_poll sn (fetch (0 + j))
        (by rw [Nat.zero_add]; exact hall j hj)))
  · intro t h
    obtain ⟨j, hj, e, hf⟩ :=
      waitAux_value_fetch sn fetch Orchestrate.max_attempts 0 t h
    exact ⟨j, hj, e, by rwa [Nat.zero_add] at hf⟩

/-- C3 witness: the amended statement at the forever-`working` stream. -/
theorem C3_witness :
    Orchestrate.wait_for_task_completion ("Agno") workingFetch =
      .exn (Orchestrate.timeoutMsg ("Agno")) :=
  (C3_theorem ("Agno") workingFetch).1 (fun _ _ => rfl)

/-- C4: the `raise` for a `failed`/`canceled` task sits inside the same
`try` block as the fetch, so when the task's diagnostic string contains
"500" or "Internal Server Error" the just-raised terminal failure is
caught by the server-error branch and retried instead of propagating:
a task fetched as `failed` with error "Internal Server Error" and later
`completed` makes the waiter return success; fetched as `failed` forever
it burns all 60 attempts and raises the timeout message.  With any
diagnostic not matching the server-error test the loop does stop
immediately with the terminal failure. -/
theorem C4_theorem :
    Orchestrate.wait_for_task_completion ("Agno") failed500ThenCompleted =
      .value ("late") ∧
    Orchestrate.wait_for_task_completion ("Agno") failed500Forever =
      .exn (Orchestrate.timeoutMsg ("Agno")) ∧
    Orchestrate.waitStep ("Agno")
        (.ok .failed ("") (some ("boom"))) =
      .done (.exn (Orchestrate.failedMsg ("Agno") (some ("boom")))) ∧
    Orchestrate.waitStep ("Agno")
        (.ok .failed ("") (some ("Internal Server Error"))) =
      .retBackoff := by
  exact ⟨rfl, rfl, rfl, rfl⟩

/-! ## Claim theorems: the workflows -/

/-- C7: the synthesis prompt is a deterministic function of the two
fan-out results: binding `agno_result` / `llama_result` from the shared
`results` list gives the same prompt whichever collector appended first,
that prompt places the Agno result `x` textually before the LlamaIndex
result `y` (the template interpolates `agno_result` first), and the
whole workflow trace is invariant to the completion order of the two
parallel members. -/
theorem C7_theorem (q x y : String) (envAgno envLlama : Nat → String)
    (o1 o2 : Bool) :
    OrchestrateParallel.synthesis_prompt_from_results q
        [("agno", x), ("llama", y)] =
      OrchestrateParallel.synthesis_prompt_from_results q
        [("llama", y), ("agno", x)] ∧
    OrchestrateParallel.synthesis_prompt_from_results q
        [("llama", y), ("agno", x)] =
      OrchestrateParallel.synthesis_pre q ++ x ++
        OrchestrateParallel.synthesis_mid ++ y ++
        OrchestrateParallel.synthesis_post ∧
    OrchestrateParallel.parallel_processing_workflow q envAgno envLlama
        o1 o2 true =
      OrchestrateParallel.parallel_processing_workflow q envAgno envLlama
        o1 o2 false := by
  exact ⟨rfl, rfl, rfl⟩

/-- C8: in the collaborative workflow, whenever the waiter of some step
propagates an error, the workflow stops there: the steps after it are
never submitted (the submission list ends at the failing step) and the
run's outcome is exactly that step's error; `main` then reports that
error as the failure of the run. -/
theorem C8_theorem (q : String) (env : Nat → Nat → Orchestrate.FetchOutcome)
    (m : String) :
    (Orchestrate.wait_for_task_completion ("LlamaIndex") (env 0) = .exn m →
      Orchestrate.orchestrate_collaborative_workflow q env =
        (.exn m, [(("LlamaIndex" : String), Orchestrate.llama_prompt q)])) ∧
    (∀ r0,
      Orchestrate.wait_for_task_completion ("LlamaIndex") (env 0) = .value r0 →
      Orchestrate.wait_for_task_completion ("Agno") (env 1) = .exn m →
      Orchestrate.orchestrate_collaborative_workflow q env =
        (.exn m,
         [(("LlamaIndex" : String), Orchestrate.llama_prompt q),
          (("Agno" : String), Orchestrate.agno_prompt q r0)])) ∧
    (∀ r0 r1,
      Orchestrate.wait_for_task_completion ("LlamaIndex") (env 0) = .value r0 →
      Orchestrate.wait_for_task_completion ("Agno") (env 1) = .value r1 →
      Orchestrate.wait_for_task_completion ("LlamaIndex") (env 2) = .exn m →
      Orchestrate.orchestrate_collaborative_workflow q env =
        (.exn m,
         [(("LlamaIndex" : String), Orchestrate.llama_prompt q),
          (("Agno" : String), Orchestrate.agno_prompt q r0),
          (("LlamaIndex" : String), Orchestrate.validation_prompt q r1)])) ∧
    (∀ r0 r1 r2,
      Orchestrate.wait_for_task_completion ("LlamaIndex") (env 0) = .value r0 →
      Orchestrate.wait_for_task_completion ("Agno") (env 1) = .value r1 →
      Orchestrate.wait_for_task_completion ("LlamaIndex") (env 2) = .value r2 →
      Orchestrate.wait_for_task_completion ("Agno") (env 3) = .exn m →
      Orchestrate.orchestrate_collaborative_workflow q env =
        (.exn m,
         [(("LlamaIndex" : String), Orchestrate.llama_prompt q),
          (("Agno" : String), Orchestrate.agno_prompt q r0),
          (("LlamaIndex" : String), Orchestrate.validation_prompt q r1),
          (("Agno" : String), Orchestrate.final_prompt q r2 r1)])) ∧
    ((Orchestrate.orchestrate_collaborative_workflow
        Orchestrate.initial_question env).1 = .exn m →
      Orchestrate.main env = .errorPrinted m) := by
  refine ⟨?_, ?_, ?_, ?_, ?_⟩
  · intro h0
    simp [Orchestrate.orchestrate_collaborative_workflow, h0]
  · intro r0 h0 h1
    simp [Orchestrate.orchestrate_collaborative_workflow, h0, h1]
  · intro r0 r1 h0 h1 h2
    simp [Orchestrate.orchestrate_collaborative_workflow, h0, h1, h2]
  · intro r0 r1 r2 h0 h1 h2 h3
    simp [Orchestrate.orchestrate_collaborative_workflow, h0, h1, h2, h3]
  · intro h
    simp [Orchestrate.main, h]

/-- C8 witness: the statement at an environment whose second step reads a
`failed` task with diagnostic "boom". -/
theorem C8_witness :
    Orchestrate.orchestrate_collaborative_workflow ("Q") step1FailEnv =
      (.exn ("Agno task failed: boom"),
       [(("LlamaIndex" : String), Orchestrate.llama_prompt ("Q")),
        (("Agno" : String), Orchestrate.agno_prompt ("Q") ("r0"))]) :=
  (C8_theorem ("Q") step1FailEnv ("Agno task failed: boom")).2.1 ("r0") rfl rfl

/-- C10: on a run where every awaited task completes, each fan-out prompt
is submitted to its service exactly twice — once in the discarded first
task group, once in the collecting second group — and the synthesis
prompt (the only other Agno submission) is built from the second pair's
results (`envAgno 1`, `envLlama 1`, the occurrence-1 tasks), never from
the first pair's; the returned final result is the synthesis task's. -/
theorem C10_theorem (q : String) (envAgno envLlama : Nat → String)
    (o1 o2 o3 : Bool) :
    (((OrchestrateParallel.parallel_processing_workflow q envAgno envLlama
          o1 o2 o3).submissions.filter
        (fun sv => sv.1 == "Agno")).map Prod.snd) =
      [OrchestrateParallel.agno_fanout_prompt q,
       OrchestrateParallel.agno_fanout_prompt q,
       OrchestrateParallel.synthesis_prompt q (envAgno 1) (envLlama 1)] ∧
    (((OrchestrateParallel.parallel_processing_workflow q envAgno envLlama
          o1 o2 o3).submissions.filter
        (fun sv => sv.1 == "LlamaIndex")).map Prod.snd) =
      [OrchestrateParallel.llama_fanout_prompt q,
       OrchestrateParallel.llama_fanout_prompt q] ∧
    (OrchestrateParallel.parallel_processing_workflow q envAgno envLlama
        o1 o2 o3).final_result = envAgno 2 ∧
    (OrchestrateParallel.parallel_processing_workflow q envAgno envLlama
        o1 o2 o3).agno_result = some (envAgno 1) ∧
    (OrchestrateParallel.parallel_processing_workflow q envAgno envLlama
        o1 o2 o3).llama_result = some (envLlama 1) := by
  cases o1 <;> cases o2 <;> cases o3 <;> exact ⟨rfl, rfl, rfl, rfl, rfl⟩

end A2A
